import Mathlib

/-!
Verification of the CUTLASS `GaussianEpilogue` thread-level epilogue functor
(`include/cutlass/epilogue/thread/gaussian.h`).

The C++ class is a template over the element types
`ElementOutput`, `ElementAccumulator`, `ElementCompute`, `ElementSource`,
a fragment width `Count`, and a rounding style.  The scalar/array numeric
converters and the device fast exponential `__expf` are external black-box
capabilities.  We embed the functor parametrically: a `NumericModel` packages
the converters and the compute-type arithmetic the instantiation supplies,
and the functor itself stores the three (possibly null) parameter pointers,
exactly as the C++ data members `p1_`, `p2_`, `p3_` do.
-/

/-- A raw device pointer to an array of elements: either null (`none`) or a
readable region, modelled as the map from element offset to stored value. -/
abbrev Ptr (α : Type) := Option (Nat → α)

/-- Null pointer (the value `nullptr` gives the three pointers of a
default-constructed `Params`). -/
def Ptr.null (α : Type) : Ptr α := none

/-- Dereference `p[i]`: yields the stored value, or fails on a null pointer
(in C++ this is undefined behavior; the embedding makes it an explicit
failure so that theorems can state validity hypotheses). -/
def Ptr.read {α : Type} (p : Ptr α) (i : Nat) : Option α :=
  Option.map (fun a => a i) p

/-- The numeric capabilities a template instantiation supplies:
`NumericConverter` between each pair of element types, the compute-type
arithmetic (`-`, `/`, `*`), the float literal `-0.5f` and the device fast
exponential `__expf`, all black boxes from the functor's point of view. -/
structure NumericModel (O A C S : Type) where
  accToCompute : A → C
  srcToCompute : S → C
  computeToOut : C → O
  sub : C → C → C
  div : C → C → C
  mul : C → C → C
  negHalf : C
  expf : C → C

/-- A `NumericArrayConverter` applies the scalar converter to each of the
`kCount` lanes of a fragment. -/
def arrayConvert {α β : Type} {n : Nat} (c : α → β) (v : Fin n → α) : Fin n → β :=
  fun i => c (v i)

/-- Host-constructable parameters structure `GaussianEpilogue::Params`:
three pointers to compute-type arrays (amplitude, mean, standard deviation). -/
structure Params (C : Type) where
  p1 : Ptr C
  p2 : Ptr C
  p3 : Ptr C

/-- The default constructor `Params()` sets all three pointers to `nullptr`. -/
def Params.default (C : Type) : Params C :=
  ⟨Ptr.null C, Ptr.null C, Ptr.null C⟩

/-- The functor's data members: the three parameter pointers copied from the
`Params` argument at construction.  No other mutable state exists. -/
structure GaussianEpilogue (C : Type) where
  p1_ : Ptr C
  p2_ : Ptr C
  p3_ : Ptr C

/-- The constructor `GaussianEpilogue(Params const &params)`. -/
def GaussianEpilogue.ofParams {C : Type} (params : Params C) : GaussianEpilogue C :=
  ⟨params.p1, params.p2, params.p3⟩

/-- Member `is_source_needed()`: literally `return false`. -/
def GaussianEpilogue.is_source_needed {C : Type} (_f : GaussianEpilogue C) : Bool :=
  false

/-- Member `set_k_partition(int, int)`: an empty body; the post-call state of
the functor is returned explicitly (the body assigns nothing, so it is the
receiver unchanged). -/
def GaussianEpilogue.set_k_partition {C : Type} (f : GaussianEpilogue C)
    (_k_partition _k_partition_count : Int) : GaussianEpilogue C :=
  f

/-- The loop body shared by all four `operator()` overloads:
`diff = (p2 - x) / p3; p1 * __expf(-0.5f * diff * diff)`. -/
def gaussBody {O A C S : Type} (M : NumericModel O A C S) (p1 p2 p3 x : C) : C :=
  let diff := M.div (M.sub p2 x) p3
  M.mul p1 (M.expf (M.mul (M.mul M.negHalf diff) diff))

/-- Overload `operator()(FragmentAccumulator const &accumulator)` (the
one-argument fragment form): convert the accumulator fragment to the compute
type, run the Gaussian loop over the `kCount` lanes reading `p1_[i]`,
`p2_[i]`, `p3_[i]`, and convert the intermediate fragment to the output
type.  Fails (C++ undefined behavior) if a parameter pointer is null. -/
def GaussianEpilogue.applyFragAcc {O A C S : Type} {n : Nat}
    (f : GaussianEpilogue C) (M : NumericModel O A C S)
    (accumulator : Fin n → A) : Option (Fin n → O) :=
  let converted_accumulator := arrayConvert M.accToCompute accumulator
  match f.p1_, f.p2_, f.p3_ with
  | some a1, some a2, some a3 =>
    let intermediate : Fin n → C := fun i =>
      let x := converted_accumulator i
      let diff := M.div (M.sub (a2 i.val) x) (a3 i.val)
      M.mul (a1 i.val) (M.expf (M.mul (M.mul M.negHalf diff) diff))
    some (arrayConvert M.computeToOut intermediate)
  | _, _, _ => none

/-- Overload `operator()(FragmentAccumulator const &, FragmentSource const &)`
(the two-argument fragment form): identical loop; the source fragment is
converted to the compute type (`converted_source`) and then never read. -/
def GaussianEpilogue.applyFragAccSrc {O A C S : Type} {n : Nat}
    (f : GaussianEpilogue C) (M : NumericModel O A C S)
    (accumulator : Fin n → A) (source : Fin n → S) : Option (Fin n → O) :=
  let _converted_source := arrayConvert M.srcToCompute source
  let converted_accumulator := arrayConvert M.accToCompute accumulator
  match f.p1_, f.p2_, f.p3_ with
  | some a1, some a2, some a3 =>
    let intermediate : Fin n → C := fun i =>
      let x := converted_accumulator i
      let diff := M.div (M.sub (a2 i.val) x) (a3 i.val)
      M.mul (a1 i.val) (M.expf (M.mul (M.mul M.negHalf diff) diff))
    some (arrayConvert M.computeToOut intermediate)
  | _, _, _ => none

/-- Overload `operator()(ElementAccumulator, int idx)` (the one-argument
scalar form): convert the scalar accumulator, read `p1_[idx]`, `p2_[idx]`,
`p3_[idx]`, compute the Gaussian, convert to the output type. -/
def GaussianEpilogue.applyScalarAcc {O A C S : Type}
    (f : GaussianEpilogue C) (M : NumericModel O A C S)
    (accumulator : A) (idx : Nat) : Option O := do
  let converted_accumulator := M.accToCompute accumulator
  let x := converted_accumulator
  let p2v ← Ptr.read f.p2_ idx
  let p3v ← Ptr.read f.p3_ idx
  let diff := M.div (M.sub p2v x) p3v
  let p1v ← Ptr.read f.p1_ idx
  let result := M.mul p1v (M.expf (M.mul (M.mul M.negHalf diff) diff))
  return M.computeToOut result

/-- Overload `operator()(ElementAccumulator, ElementC source, int idx)` (the
two-argument scalar form): same computation; the `source` argument is never
read (a source converter is declared in the C++ body but never applied). -/
def GaussianEpilogue.applyScalarAccSrc {O A C S : Type}
    (f : GaussianEpilogue C) (M : NumericModel O A C S)
    (accumulator : A) (_source : S) (idx : Nat) : Option O := do
  let converted_accumulator := M.accToCompute accumulator
  let x := converted_accumulator
  let p2v ← Ptr.read f.p2_ idx
  let p3v ← Ptr.read f.p3_ idx
  let diff := M.div (M.sub p2v x) p3v
  let p1v ← Ptr.read f.p1_ idx
  let result := M.mul p1v (M.expf (M.mul (M.mul M.negHalf diff) diff))
  return M.computeToOut result

/-- An invocation of the one-argument fragment overload as a state
transition: all four `operator()` overloads are `const` member functions
with no `mutable` members, so the post-call state of the functor is the
receiver unchanged; the pair returns (result, post-call functor). -/
def GaussianEpilogue.callFragAcc {O A C S : Type} {n : Nat}
    (f : GaussianEpilogue C) (M : NumericModel O A C S)
    (accumulator : Fin n → A) : Option (Fin n → O) × GaussianEpilogue C :=
  (f.applyFragAcc M accumulator, f)

/-- The two-argument fragment overload as a state transition. -/
def GaussianEpilogue.callFragAccSrc {O A C S : Type} {n : Nat}
    (f : GaussianEpilogue C) (M : NumericModel O A C S)
    (accumulator : Fin n → A) (source : Fin n → S) :
    Option (Fin n → O) × GaussianEpilogue C :=
  (f.applyFragAccSrc M accumulator source, f)

/-- The one-argument scalar overload as a state transition. -/
def GaussianEpilogue.callScalarAcc {O A C S : Type}
    (f : GaussianEpilogue C) (M : NumericModel O A C S)
    (accumulator : A) (idx : Nat) : Option O × GaussianEpilogue C :=
  (f.applyScalarAcc M accumulator idx, f)

/-- The two-argument scalar overload as a state transition. -/
def GaussianEpilogue.callScalarAccSrc {O A C S : Type}
    (f : GaussianEpilogue C) (M : NumericModel O A C S)
    (accumulator : A) (source : S) (idx : Nat) : Option O × GaussianEpilogue C :=
  (f.applyScalarAccSrc M accumulator source idx, f)

/-- C1: for every accumulator fragment and every lane i of the N lanes, the
fragment-form apply first converts lane i from the accumulator type to the
compute type giving x, then computes p1[i] * expf(-0.5 * ((p2[i] - x) / p3[i])
* ((p2[i] - x) / p3[i])) in the compute type, converts the result to the
output type, and places it at output lane i. -/
theorem gaussian_applyFrag_per_lane {O A C S : Type} (M : NumericModel O A C S)
    {n : Nat} (a1 a2 a3 : Nat → C) (accumulator : Fin n → A) :
    (GaussianEpilogue.mk (some a1) (some a2) (some a3)).applyFragAcc M accumulator
      = some (fun i =>
          M.computeToOut
            (gaussBody M (a1 i.val) (a2 i.val) (a3 i.val)
              (M.accToCompute (accumulator i)))) := by
  rfl

/-- C2: the two-argument overloads (fragment form with a source fragment,
scalar form with a source scalar) return exactly the same output as the
corresponding one-argument overload on the same accumulator input and index;
the source argument has no effect. -/
theorem gaussian_source_ignored {O A C S : Type} (M : NumericModel O A C S)
    {n : Nat} (f : GaussianEpilogue C) (accumulator : Fin n → A)
    (source : Fin n → S) (a : A) (s : S) (idx : Nat) :
    f.applyFragAccSrc M accumulator source = f.applyFragAcc M accumulator ∧
    f.applyScalarAccSrc M a s idx = f.applyScalarAcc M a idx := by
  exact ⟨rfl, rfl⟩

/-- C3: for every constructed functor, whatever the construction parameters
(the default-constructed null-pointer `Params` included), `is_source_needed`
returns false. -/
theorem gaussian_source_never_needed {C : Type} (params : Params C) :
    (GaussianEpilogue.ofParams params).is_source_needed = false ∧
    (GaussianEpilogue.ofParams (Params.default C)).is_source_needed = false := by
  exact ⟨rfl, rfl⟩

/-- C4: `set_k_partition` leaves the functor's state unchanged for any
partition index and count, so every subsequent apply overload returns the
same output as on the original functor: it is a no-op. -/
theorem gaussian_set_k_partition_noop {O A C S : Type} (M : NumericModel O A C S)
    {n : Nat} (f : GaussianEpilogue C) (k kc : Int) (accumulator : Fin n → A)
    (source : Fin n → S) (a : A) (s : S) (idx : Nat) :
    f.set_k_partition k kc = f ∧
    (f.set_k_partition k kc).applyFragAcc M accumulator
      = f.applyFragAcc M accumulator ∧
    (f.set_k_partition k kc).applyFragAccSrc M accumulator source
      = f.applyFragAccSrc M accumulator source ∧
    (f.set_k_partition k kc).applyScalarAcc M a idx
      = f.applyScalarAcc M a idx ∧
    (f.set_k_partition k kc).applyScalarAccSrc M a s idx
      = f.applyScalarAccSrc M a s idx := by
  exact ⟨rfl, rfl, rfl, rfl, rfl⟩

/-- C9: every overload is deterministic and idempotent: invoked as a state
transition, the post-call functor is the unchanged receiver (the stored
parameter pointers are not modified), and a second invocation on the
post-call functor with identical arguments returns the identical output. -/
theorem gaussian_stateless {O A C S : Type} (M : NumericModel O A C S)
    {n : Nat} (f : GaussianEpilogue C) (accumulator : Fin n → A)
    (source : Fin n → S) (a : A) (s : S) (idx : Nat) :
    (f.callFragAcc M accumulator).2 = f ∧
    (f.callFragAccSrc M accumulator source).2 = f ∧
    (f.callScalarAcc M a idx).2 = f ∧
    (f.callScalarAccSrc M a s idx).2 = f ∧
    ((f.callFragAcc M accumulator).2.callFragAcc M accumulator).1
      = (f.callFragAcc M accumulator).1 ∧
    ((f.callFragAccSrc M accumulator source).2.callFragAccSrc M accumulator source).1
      = (f.callFragAccSrc M accumulator source).1 ∧
    ((f.callScalarAcc M a idx).2.callScalarAcc M a idx).1
      = (f.callScalarAcc M a idx).1 ∧
    ((f.callScalarAccSrc M a s idx).2.callScalarAccSrc M a s idx).1
      = (f.callScalarAccSrc M a s idx).1 := by
  exact ⟨rfl, rfl, rfl, rfl, rfl, rfl, rfl, rfl⟩

/-- C10: for every functor, accumulator fragment and lane i, lane i of the
output of the one-argument fragment form equals the output of the
one-argument scalar form on lane i of the accumulator with index i: the two
overloads implement the same per-element function. -/
theorem gaussian_frag_refines_scalar {O A C S : Type} (M : NumericModel O A C S)
    {n : Nat} (f : GaussianEpilogue C) (accumulator : Fin n → A) (i : Fin n) :
    Option.map (fun v => v i) (f.applyFragAcc M accumulator)
      = f.applyScalarAcc M (accumulator i) i.val := by
  obtain ⟨a1, a2, a3⟩ := f
  cases a1 <;> cases a2 <;> cases a3 <;>
    simp [GaussianEpilogue.applyFragAcc, GaussianEpilogue.applyScalarAcc,
      Ptr.read, arrayConvert]

/-- Idealized compute-type instantiation with `ElementCompute = ℚ` (exact
arithmetic on finite values): the field operations interpret `-`, `/`, `*`,
the literal `-0.5f` is the rational -1/2, while the converters and the fast
exponential `__expf` stay abstract, exactly as the template leaves them. -/
def ratModel {O A S : Type} (accConv : A → ℚ) (srcConv : S → ℚ)
    (outConv : ℚ → O) (expf : ℚ → ℚ) : NumericModel O A ℚ S where
  accToCompute := accConv
  srcToCompute := srcConv
  computeToOut := outConv
  sub := fun a b => a - b
  div := fun a b => a / b
  mul := fun a b => a * b
  negHalf := -(1/2 : ℚ)
  expf := expf

/-- C5: for every lane i with p3[i] ≠ 0, if the accumulator converts to
exactly p2[i] then the exponent argument is 0, and provided the fast
exponential satisfies expf 0 = 1 the output at lane i is exactly p1[i]
passed through the output conversion (the peak of the Gaussian). -/
theorem gaussian_peak {O A S : Type} (accConv : A → ℚ) (srcConv : S → ℚ)
    (outConv : ℚ → O) (expf : ℚ → ℚ) (hexp : expf 0 = 1)
    {n : Nat} (a1 a2 a3 : Nat → ℚ) (accumulator : Fin n → A) (i : Fin n)
    (hx : accConv (accumulator i) = a2 i.val) (h3 : a3 i.val ≠ 0) :
    Option.map (fun v => v i)
      ((GaussianEpilogue.mk (some a1) (some a2) (some a3)).applyFragAcc
        (ratModel accConv srcConv outConv expf) accumulator)
      = some (outConv (a1 i.val)) := by
  simp [GaussianEpilogue.applyFragAcc, arrayConvert, ratModel, hx, hexp]

/-- Witness for C5 at a concrete instance: p1 = [2], p2 = [5], p3 = [3],
accumulator lane 0 equal to the mean 5, identity conversions and a fast
exponential with expf 0 = 1; the output at lane 0 is exactly p1[0] = 2. -/
theorem gaussian_peak_witness :
    (fun q : ℚ => 1 + q) 0 = 1 ∧
    (id ((5 : ℚ)) = (fun _ : Nat => (5 : ℚ)) 0) ∧
    ((fun _ : Nat => (3 : ℚ)) 0 ≠ 0) ∧
    Option.map (fun v => v (0 : Fin 1))
      ((GaussianEpilogue.mk (some fun _ => (2 : ℚ)) (some fun _ => (5 : ℚ))
          (some fun _ => (3 : ℚ))).applyFragAcc
        (ratModel id id id (fun q => 1 + q)) (fun _ : Fin 1 => (5 : ℚ)))
      = some (id (2 : ℚ)) := by
  refine ⟨by norm_num, rfl, by norm_num, ?_⟩
  exact gaussian_peak id id id (fun q => 1 + q) (by norm_num)
    (fun _ => 2) (fun _ => 5) (fun _ => 3) (fun _ => 5) 0 rfl (by norm_num)

/-- C6: for every lane i with p3[i] ≠ 0, accumulators converting to
p2[i] + d and p2[i] - d produce equal outputs at lane i for any rational
offset d: the computed Gaussian is even about its mean p2[i]. -/
theorem gaussian_symmetric {O A S : Type} (accConv : A → ℚ) (srcConv : S → ℚ)
    (outConv : ℚ → O) (expf : ℚ → ℚ)
    {n : Nat} (a1 a2 a3 : Nat → ℚ) (accP accM : Fin n → A) (i : Fin n)
    (d : ℚ) (hP : accConv (accP i) = a2 i.val + d)
    (hM : accConv (accM i) = a2 i.val - d) (h3 : a3 i.val ≠ 0) :
    Option.map (fun v => v i)
      ((GaussianEpilogue.mk (some a1) (some a2) (some a3)).applyFragAcc
        (ratModel accConv srcConv outConv expf) accP)
      = Option.map (fun v => v i)
        ((GaussianEpilogue.mk (some a1) (some a2) (some a3)).applyFragAcc
          (ratModel accConv srcConv outConv expf) accM) := by
  show some (outConv (a1 i.val * expf (-(1/2 : ℚ)
        * ((a2 i.val - accConv (accP i)) / a3 i.val)
        * ((a2 i.val - accConv (accP i)) / a3 i.val))))
      = some (outConv (a1 i.val * expf (-(1/2 : ℚ)
        * ((a2 i.val - accConv (accM i)) / a3 i.val)
        * ((a2 i.val - accConv (accM i)) / a3 i.val))))
  rw [hP, hM]
  have key : -(1/2 : ℚ) * ((a2 i.val - (a2 i.val + d)) / a3 i.val)
        * ((a2 i.val - (a2 i.val + d)) / a3 i.val)
      = -(1/2 : ℚ) * ((a2 i.val - (a2 i.val - d)) / a3 i.val)
        * ((a2 i.val - (a2 i.val - d)) / a3 i.val) := by
    ring
  rw [key]

/-- Witness for C6 at a concrete instance: p1 = [2], p2 = [5], p3 = [3],
offset d = 4, accumulators 9 = 5 + 4 and 1 = 5 - 4: the two outputs at
lane 0 coincide. -/
theorem gaussian_symmetric_witness :
    (id ((9 : ℚ)) = (fun _ : Nat => (5 : ℚ)) 0 + 4) ∧
    (id ((1 : ℚ)) = (fun _ : Nat => (5 : ℚ)) 0 - 4) ∧
    ((fun _ : Nat => (3 : ℚ)) 0 ≠ 0) ∧
    Option.map (fun v => v (0 : Fin 1))
      ((GaussianEpilogue.mk (some fun _ => (2 : ℚ)) (some fun _ => (5 : ℚ))
          (some fun _ => (3 : ℚ))).applyFragAcc
        (ratModel id id id (fun q => 1 + q)) (fun _ : Fin 1 => (9 : ℚ)))
      = Option.map (fun v => v (0 : Fin 1))
        ((GaussianEpilogue.mk (some fun _ => (2 : ℚ)) (some fun _ => (5 : ℚ))
            (some fun _ => (3 : ℚ))).applyFragAcc
          (ratModel id id id (fun q => 1 + q)) (fun _ : Fin 1 => (1 : ℚ))) := by
  refine ⟨by norm_num, by norm_num, by norm_num, ?_⟩
  exact gaussian_symmetric id id id (fun q => 1 + q)
    (fun _ => 2) (fun _ => 5) (fun _ => 3) (fun _ => 9) (fun _ => 1) 0 4
    (by norm_num) (by norm_num) (by norm_num)

/-- C7: with ElementOutput = ElementCompute (the template default, identity
output conversion), p3[i] ≠ 0, a fast exponential that is monotone and
nonnegative (as any exponential approximation is), and offsets
0 ≤ d1 < d2, the magnitude of the output at lane i for accumulator
p2[i] + d2 is at most the magnitude for accumulator p2[i] + d1: the
computed value decays monotonically away from the mean. -/
theorem gaussian_decay {A S : Type} (accConv : A → ℚ) (srcConv : S → ℚ)
    (expf : ℚ → ℚ) (hmono : Monotone expf) (hnonneg : ∀ t, 0 ≤ expf t)
    {n : Nat} (a1 a2 a3 : Nat → ℚ) (acc1 acc2 : Fin n → A) (i : Fin n)
    (d1 d2 : ℚ) (hd1 : 0 ≤ d1) (hdd : d1 < d2) (h3 : a3 i.val ≠ 0)
    (h1 : accConv (acc1 i) = a2 i.val + d1)
    (h2 : accConv (acc2 i) = a2 i.val + d2) :
    |(Option.map (fun v => v i)
        ((GaussianEpilogue.mk (some a1) (some a2) (some a3)).applyFragAcc
          (ratModel accConv srcConv id expf) acc2)).getD 0|
      ≤ |(Option.map (fun v => v i)
          ((GaussianEpilogue.mk (some a1) (some a2) (some a3)).applyFragAcc
            (ratModel accConv srcConv id expf) acc1)).getD 0| := by
  show |a1 i.val * expf (-(1/2 : ℚ)
        * ((a2 i.val - accConv (acc2 i)) / a3 i.val)
        * ((a2 i.val - accConv (acc2 i)) / a3 i.val))|
      ≤ |a1 i.val * expf (-(1/2 : ℚ)
        * ((a2 i.val - accConv (acc1 i)) / a3 i.val)
        * ((a2 i.val - accConv (acc1 i)) / a3 i.val))|
  rw [h1, h2]
  have e1 : -(1/2 : ℚ) * ((a2 i.val - (a2 i.val + d1)) / a3 i.val)
        * ((a2 i.val - (a2 i.val + d1)) / a3 i.val)
      = -(d1 ^ 2 / (2 * a3 i.val ^ 2)) := by
    ring
  have e2 : -(1/2 : ℚ) * ((a2 i.val - (a2 i.val + d2)) / a3 i.val)
        * ((a2 i.val - (a2 i.val + d2)) / a3 i.val)
      = -(d2 ^ 2 / (2 * a3 i.val ^ 2)) := by
    ring
  rw [e1, e2]
  have hsq : d1 ^ 2 ≤ d2 ^ 2 := by nlinarith
  have hden : (0 : ℚ) < 2 * a3 i.val ^ 2 := by positivity
  have hX : -(d2 ^ 2 / (2 * a3 i.val ^ 2)) ≤ -(d1 ^ 2 / (2 * a3 i.val ^ 2)) := by
    have hdiv : d1 ^ 2 / (2 * a3 i.val ^ 2) ≤ d2 ^ 2 / (2 * a3 i.val ^ 2) := by
      gcongr
    linarith
  have hE : expf (-(d2 ^ 2 / (2 * a3 i.val ^ 2)))
      ≤ expf (-(d1 ^ 2 / (2 * a3 i.val ^ 2))) := hmono hX
  calc |a1 i.val * expf (-(d2 ^ 2 / (2 * a3 i.val ^ 2)))|
      = |a1 i.val| * expf (-(d2 ^ 2 / (2 * a3 i.val ^ 2))) := by
        rw [abs_mul, abs_of_nonneg (hnonneg _)]
    _ ≤ |a1 i.val| * expf (-(d1 ^ 2 / (2 * a3 i.val ^ 2))) :=
        mul_le_mul_of_nonneg_left hE (abs_nonneg _)
    _ = |a1 i.val * expf (-(d1 ^ 2 / (2 * a3 i.val ^ 2)))| := by
        rw [abs_mul, abs_of_nonneg (hnonneg _)]

/-- Witness for C7 at a concrete instance: p1 = [2], p2 = [5], p3 = [3],
offsets d1 = 0 and d2 = 1, accumulators 5 and 6, constant fast exponential:
the magnitude at the farther accumulator is at most the nearer one. -/
theorem gaussian_decay_witness :
    (0 : ℚ) ≤ 0 ∧ (0 : ℚ) < 1 ∧ ((fun _ : Nat => (3 : ℚ)) 0 ≠ 0) ∧
    (id ((5 : ℚ)) = (fun _ : Nat => (5 : ℚ)) 0 + 0) ∧
    (id ((6 : ℚ)) = (fun _ : Nat => (5 : ℚ)) 0 + 1) ∧
    |(Option.map (fun v => v (0 : Fin 1))
        ((GaussianEpilogue.mk (some fun _ => (2 : ℚ)) (some fun _ => (5 : ℚ))
            (some fun _ => (3 : ℚ))).applyFragAcc
          (ratModel id id id (fun _ => 1)) (fun _ : Fin 1 => (6 : ℚ)))).getD 0|
      ≤ |(Option.map (fun v => v (0 : Fin 1))
          ((GaussianEpilogue.mk (some fun _ => (2 : ℚ)) (some fun _ => (5 : ℚ))
              (some fun _ => (3 : ℚ))).applyFragAcc
            (ratModel id id id (fun _ => 1)) (fun _ : Fin 1 => (5 : ℚ)))).getD 0| := by
  refine ⟨le_refl 0, by norm_num, by norm_num, by norm_num, by norm_num, ?_⟩
  exact gaussian_decay id id (fun _ => 1) monotone_const (fun _ => zero_le_one)
    (fun _ => 2) (fun _ => 5) (fun _ => 3) (fun _ => 5) (fun _ => 6) 0 0 1
    (le_refl 0) (by norm_num) (by norm_num) (by norm_num) (by norm_num)

/-- IEEE-like extended value for the compute type: a finite value (exact
rational, abstracting the significand), a signed infinity, or NaN.  This
carries the special-value semantics the claim about `p3[i] = 0` is about. -/
inductive EFloat : Type where
  | fin : ℚ → EFloat
  | pinf : EFloat
  | ninf : EFloat
  | nan : EFloat
deriving DecidableEq

/-- True exactly on finite values (neither infinite nor NaN). -/
def EFloat.isFinite : EFloat → Bool
  | EFloat.fin _ => true
  | _ => false

/-- IEEE subtraction on extended values (finite arithmetic exact). -/
def EFloat.sub : EFloat → EFloat → EFloat
  | EFloat.fin a, EFloat.fin b => EFloat.fin (a - b)
  | EFloat.nan, _ => EFloat.nan
  | _, EFloat.nan => EFloat.nan
  | EFloat.pinf, EFloat.pinf => EFloat.nan
  | EFloat.pinf, _ => EFloat.pinf
  | EFloat.ninf, EFloat.ninf => EFloat.nan
  | EFloat.ninf, _ => EFloat.ninf
  | EFloat.fin _, EFloat.pinf => EFloat.ninf
  | EFloat.fin _, EFloat.ninf => EFloat.pinf

/-- IEEE division on extended values: a nonzero finite value divided by
(positive) zero is a signed infinity, 0/0 and inf/inf are NaN. -/
def EFloat.div : EFloat → EFloat → EFloat
  | EFloat.fin a, EFloat.fin b =>
      if b = 0 then
        if a = 0 then EFloat.nan
        else if 0 < a then EFloat.pinf else EFloat.ninf
      else EFloat.fin (a / b)
  | EFloat.nan, _ => EFloat.nan
  | _, EFloat.nan => EFloat.nan
  | EFloat.pinf, EFloat.fin b => if b < 0 then EFloat.ninf else EFloat.pinf
  | EFloat.ninf, EFloat.fin b => if b < 0 then EFloat.pinf else EFloat.ninf
  | EFloat.fin _, EFloat.pinf => EFloat.fin 0
  | EFloat.fin _, EFloat.ninf => EFloat.fin 0
  | _, _ => EFloat.nan

/-- IEEE multiplication on extended values: zero times infinity is NaN,
otherwise signs combine. -/
def EFloat.mul : EFloat → EFloat → EFloat
  | EFloat.fin a, EFloat.fin b => EFloat.fin (a * b)
  | EFloat.nan, _ => EFloat.nan
  | _, EFloat.nan => EFloat.nan
  | EFloat.fin a, EFloat.pinf =>
      if 0 < a then EFloat.pinf else if a < 0 then EFloat.ninf else EFloat.nan
  | EFloat.pinf, EFloat.fin a =>
      if 0 < a then EFloat.pinf else if a < 0 then EFloat.ninf else EFloat.nan
  | EFloat.fin a, EFloat.ninf =>
      if 0 < a then EFloat.ninf else if a < 0 then EFloat.pinf else EFloat.nan
  | EFloat.ninf, EFloat.fin a =>
      if 0 < a then EFloat.ninf else if a < 0 then EFloat.pinf else EFloat.nan
  | EFloat.pinf, EFloat.pinf => EFloat.pinf
  | EFloat.pinf, EFloat.ninf => EFloat.ninf
  | EFloat.ninf, EFloat.pinf => EFloat.ninf
  | EFloat.ninf, EFloat.ninf => EFloat.pinf

/-- The device fast exponential `__expf` on extended values: NaN propagates,
`__expf(+inf) = +inf`, `__expf(-inf) = 0`, and on finite arguments it is
some approximation `approx` (left abstract). -/
def EFloat.expf (approx : ℚ → ℚ) : EFloat → EFloat
  | EFloat.nan => EFloat.nan
  | EFloat.pinf => EFloat.pinf
  | EFloat.ninf => EFloat.fin 0
  | EFloat.fin q => EFloat.fin (approx q)

/-- Instantiation of the functor with all four element types equal to the
IEEE-like extended compute type (identity converters), exact finite
arithmetic, and an abstract finite-argument exponential approximation. -/
def efModel (approx : ℚ → ℚ) : NumericModel EFloat EFloat EFloat EFloat where
  accToCompute := id
  srcToCompute := id
  computeToOut := id
  sub := EFloat.sub
  div := EFloat.div
  mul := EFloat.mul
  negHalf := EFloat.fin (-(1/2))
  expf := EFloat.expf approx

/-- Counterexample to C8: with p1 = [1], p2 = [0], p3 = [0] and accumulator
lane 0 equal to 1 (which differs from p2[0]), the division does produce an
infinity, but the exponent argument becomes -infinity and `__expf(-inf) = 0`,
so the output at lane 0 is the FINITE value 0 — not an infinity or NaN as
the claim states. -/
theorem gaussian_p3_zero_finite_counterexample :
    ((fun _ : Nat => EFloat.fin 0) 0 = EFloat.fin 0) ∧
    ((EFloat.fin 1 : EFloat) ≠ (fun _ : Nat => EFloat.fin 0) 0) ∧
    Option.map (fun v => v (0 : Fin 1))
      ((GaussianEpilogue.mk (some fun _ => EFloat.fin 1)
          (some fun _ => EFloat.fin 0) (some fun _ => EFloat.fin 0)).applyFragAcc
        (efModel (fun q => q)) (fun _ : Fin 1 => EFloat.fin 1))
      = some (EFloat.fin 0) ∧
    Option.map (fun v => EFloat.isFinite (v (0 : Fin 1)))
      ((GaussianEpilogue.mk (some fun _ => EFloat.fin 1)
          (some fun _ => EFloat.fin 0) (some fun _ => EFloat.fin 0)).applyFragAcc
        (efModel (fun q => q)) (fun _ : Fin 1 => EFloat.fin 1))
      = some true := by
  have hs : EFloat.sub (EFloat.fin 0) (EFloat.fin 1) = EFloat.fin (-1) := by
    norm_num [EFloat.sub]
  have hd : EFloat.div (EFloat.fin (-1)) (EFloat.fin 0) = EFloat.ninf := by
    norm_num [EFloat.div]
  have h1 : EFloat.mul (EFloat.fin (-(1/2))) EFloat.ninf = EFloat.pinf := by
    norm_num [EFloat.mul]
  have h2 : EFloat.mul EFloat.pinf EFloat.ninf = EFloat.ninf := rfl
  have h3 : EFloat.expf (fun q => q) EFloat.ninf = EFloat.fin 0 := rfl
  have h4 : EFloat.mul (EFloat.fin 1) (EFloat.fin 0) = EFloat.fin 0 := by
    norm_num [EFloat.mul]
  refine ⟨rfl, by simp, ?_, ?_⟩
  · show some (EFloat.mul (EFloat.fin 1) (EFloat.expf (fun q => q)
        (EFloat.mul (EFloat.mul (EFloat.fin (-(1/2)))
          (EFloat.div (EFloat.sub (EFloat.fin 0) (EFloat.fin 1)) (EFloat.fin 0)))
          (EFloat.div (EFloat.sub (EFloat.fin 0) (EFloat.fin 1)) (EFloat.fin 0)))))
      = some (EFloat.fin 0)
    rw [hs, hd, h1, h2, h3, h4]
  · show some (EFloat.isFinite (EFloat.mul (EFloat.fin 1) (EFloat.expf (fun q => q)
        (EFloat.mul (EFloat.mul (EFloat.fin (-(1/2)))
          (EFloat.div (EFloat.sub (EFloat.fin 0) (EFloat.fin 1)) (EFloat.fin 0)))
          (EFloat.div (EFloat.sub (EFloat.fin 0) (EFloat.fin 1)) (EFloat.fin 0))))))
      = some true
    rw [hs, hd, h1, h2, h3, h4]
    rfl

/-- C8 amended: when p3[i] = 0 and the (finite) converted accumulator
differs from the finite p2[i], the division yields a signed infinity, the
exponent argument evaluates to -infinity, the fast exponential maps it to 0,
and the output at lane i is the finite value 0 (for finite p1[i]); the
computation completes and returns a fragment containing that value, with no
error raised. -/
theorem gaussian_p3_zero_amended (approx : ℚ → ℚ) {n : Nat}
    (a1 a2 a3 : Nat → EFloat) (accumulator : Fin n → EFloat) (i : Fin n)
    (qa qb qc : ℚ) (hacc : accumulator i = EFloat.fin qa)
    (hp2 : a2 i.val = EFloat.fin qb) (hp1 : a1 i.val = EFloat.fin qc)
    (hp3 : a3 i.val = EFloat.fin 0) (hne : qa ≠ qb) :
    Option.map (fun v => v i)
      ((GaussianEpilogue.mk (some a1) (some a2) (some a3)).applyFragAcc
        (efModel approx) accumulator)
      = some (EFloat.fin 0) := by
  show some (EFloat.mul (a1 i.val) (EFloat.expf approx
        (EFloat.mul (EFloat.mul (EFloat.fin (-(1/2)))
          (EFloat.div (EFloat.sub (a2 i.val) (accumulator i)) (a3 i.val)))
          (EFloat.div (EFloat.sub (a2 i.val) (accumulator i)) (a3 i.val)))))
      = some (EFloat.fin 0)
  rw [hacc, hp2, hp1, hp3]
  have hsub : EFloat.sub (EFloat.fin qb) (EFloat.fin qa) = EFloat.fin (qb - qa) := rfl
  rw [hsub]
  have hne2 : qb - qa ≠ 0 := sub_ne_zero.mpr (Ne.symm hne)
  have hmulfin : EFloat.mul (EFloat.fin qc) (EFloat.fin 0) = EFloat.fin 0 := by
    simp [EFloat.mul]
  rcases lt_or_gt_of_ne hne2 with hlt | hgt
  · have hdiv : EFloat.div (EFloat.fin (qb - qa)) (EFloat.fin 0) = EFloat.ninf := by
      simp [EFloat.div, hne2, not_lt.mpr hlt.le]
    rw [hdiv]
    have h1 : EFloat.mul (EFloat.fin (-(1/2))) EFloat.ninf = EFloat.pinf := by
      norm_num [EFloat.mul]
    rw [h1]
    have h2 : EFloat.mul EFloat.pinf EFloat.ninf = EFloat.ninf := rfl
    rw [h2]
    have h3 : EFloat.expf approx EFloat.ninf = EFloat.fin 0 := rfl
    rw [h3, hmulfin]
  · have hdiv : EFloat.div (EFloat.fin (qb - qa)) (EFloat.fin 0) = EFloat.pinf := by
      simp [EFloat.div, hne2, hgt]
    rw [hdiv]
    have h1 : EFloat.mul (EFloat.fin (-(1/2))) EFloat.pinf = EFloat.ninf := by
      norm_num [EFloat.mul]
    rw [h1]
    have h2 : EFloat.mul EFloat.ninf EFloat.pinf = EFloat.ninf := rfl
    rw [h2]
    have h3 : EFloat.expf approx EFloat.ninf = EFloat.fin 0 := rfl
    rw [h3, hmulfin]

/-- Witness for the amended C8 at a concrete instance: p1 = [3], p2 = [0],
p3 = [0], accumulator lane 0 equal to 7 ≠ 0: the output at lane 0 is the
finite value 0. -/
theorem gaussian_p3_zero_amended_witness :
    ((fun _ : Fin 1 => EFloat.fin 7) (0 : Fin 1) = EFloat.fin 7) ∧
    ((7 : ℚ) ≠ 0) ∧
    Option.map (fun v => v (0 : Fin 1))
      ((GaussianEpilogue.mk (some fun _ => EFloat.fin 3)
          (some fun _ => EFloat.fin 0) (some fun _ => EFloat.fin 0)).applyFragAcc
        (efModel (fun q => q)) (fun _ : Fin 1 => EFloat.fin 7))
      = some (EFloat.fin 0) := by
  refine ⟨rfl, by norm_num, ?_⟩
  exact gaussian_p3_zero_amended (fun q => q) (fun _ => EFloat.fin 3)
    (fun _ => EFloat.fin 0) (fun _ => EFloat.fin 0) (fun _ => EFloat.fin 7) 0
    7 0 3 rfl rfl rfl rfl (by norm_num)
